import Mathlib

/-!
Shallow embedding of the GeoformerNMR data-preparation pipeline:
`src/utils/loader.py` (DatasetBuilder.mol2graph, CarbonDatasetBuilder.process,
CarbonDatasetBuilder.get_carbon_shift), `src/utils.py` (train_val_test_split)
and `src/loader/carbon.py` (CarbonDataset.process).

Modelling conventions: Python float values are modelled exactly as decimal
numbers `man / 10 ^ exp` (structure `Dec`), with `Dec.toRat` giving the
rational value — the pipeline never branches on float values except to sort
them, and sorting is by exact numeric comparison; Python dicts
(insertion-ordered) become association lists whose update keeps the
first-insertion position; a raised exception becomes `Except.error`; a
`None` return becomes `Option.none`.  External library calls (RDKit, ogb
feature encoders) are treated as data already stored on the molecule, the
the way the data model of the spec presents them.
-/

deriving instance DecidableEq for Except

namespace GeoformerNMR

/-- An exact decimal number `man / 10 ^ exp`; the model of a Python float
value flowing through the pipeline. -/
structure Dec where
  man : Int
  exp : Nat
deriving DecidableEq, Repr

/-- The rational value of a decimal. -/
def Dec.toRat (d : Dec) : ℚ := (d.man : ℚ) / (10 : ℚ) ^ d.exp

/-- Exact addition of decimals (common-denominator alignment). -/
def Dec.add (a b : Dec) : Dec :=
  ⟨a.man * (10 : Int) ^ b.exp + b.man * (10 : Int) ^ a.exp, a.exp + b.exp⟩

/-- Exact halving of a decimal (multiply the mantissa by 5, shift the
exponent), used for the mean of the two middle elements in a median. -/
def Dec.halve (a : Dec) : Dec := ⟨a.man * 5, a.exp + 1⟩

/-- Exact numeric comparison of decimals by cross-multiplication. -/
def Dec.ble (a b : Dec) : Bool :=
  decide (a.man * (10 : Int) ^ b.exp ≤ b.man * (10 : Int) ^ a.exp)

/-- The decimal zero, the `0` placeholder the assembler writes where no
observation exists. -/
def decZero : Dec := ⟨0, 0⟩

/-- Splitting a character list on a single separator character, with Python
`str.split(sep)` semantics for a one-character separator: the empty string
yields one empty group, a trailing separator yields a trailing empty group. -/
def splitOnSep (sep : Char) : List Char → List (List Char)
  | [] => [[]]
  | c :: rest =>
    if c = sep then [] :: splitOnSep sep rest
    else match splitOnSep sep rest with
      | [] => [[c]]
      | g :: gs => (c :: g) :: gs

/-- Models Python `s.split(sep)` for a one-character separator. -/
def pySplit (sep : Char) (s : String) : List String :=
  (splitOnSep sep s.toList).map String.mk

/-- Whether the character list `s` starts with the character list `p`. -/
def startsWithChars (p s : List Char) : Bool :=
  match p, s with
  | [], _ => true
  | _ :: _, [] => false
  | a :: ps, b :: ss => a == b && startsWithChars ps ss

/-- Models Python `s.startswith(p)`. -/
def pyStartsWith (s p : String) : Bool :=
  startsWithChars p.toList s.toList

/-- Evaluates a digits-only character list to a natural number;
`Option.none` when the list is empty or has a non-digit. -/
def parseDigits? (cs : List Char) : Option Nat :=
  if cs.isEmpty then Option.none
  else if cs.all (fun c => c.isDigit) then
    some (cs.foldl (fun n c => n * 10 + (c.toNat - 48)) 0)
  else Option.none

/-- Models the Python `float()` builtin on an unsigned plain decimal literal
(`digits`, `digits.digits`, `.digits`, `digits.`), the forms the annotation
format uses; the exact decimal value is returned, anything else fails. -/
def parseUnsignedDec? (cs : List Char) : Option Dec :=
  match splitOnSep '.' cs with
  | [ip] => (parseDigits? ip).map (fun n => ⟨(n : Int), 0⟩)
  | [ip, fp] =>
    if ip.isEmpty && fp.isEmpty then Option.none
    else
      match (if ip.isEmpty then some 0 else parseDigits? ip),
            (if fp.isEmpty then some 0 else parseDigits? fp) with
      | some a, some b => some ⟨(a : Int) * (10 : Int) ^ fp.length + (b : Int), fp.length⟩
      | _, _ => Option.none
  | _ => Option.none

/-- Models the Python `float()` builtin (decimal literals with optional sign). -/
def pyFloat? (s : String) : Option Dec :=
  match s.toList with
  | '-' :: rest => (parseUnsignedDec? rest).map (fun d => ⟨-d.man, d.exp⟩)
  | '+' :: rest => parseUnsignedDec? rest
  | cs => parseUnsignedDec? cs

/-- Models the Python `int()` builtin (decimal integer literals with optional sign). -/
def pyInt? (s : String) : Option Int :=
  match s.toList with
  | '-' :: rest => (parseDigits? rest).map (fun n => -(n : Int))
  | '+' :: rest => (parseDigits? rest).map (fun n => (n : Int))
  | cs => (parseDigits? cs).map (fun n => (n : Int))

/-- Insert a value into an ascending-sorted list of decimals. -/
def insertSorted (x : Dec) : List Dec → List Dec
  | [] => [x]
  | y :: ys => if x.ble y then x :: y :: ys else y :: insertSorted x ys

/-- Sort a list of decimals ascending (the order `np.median` uses). -/
def sortAsc (l : List Dec) : List Dec := l.foldr insertSorted []

/-- Models `np.median` on a nonempty 1-D array: sort ascending, take the
middle element for odd length, the mean of the two middle elements for even
length. -/
def npMedian (l : List Dec) : Dec :=
  if l.length % 2 = 1 then (sortAsc l).getD (l.length / 2) decZero
  else Dec.halve (Dec.add ((sortAsc l).getD (l.length / 2 - 1) decZero)
                          ((sortAsc l).getD (l.length / 2) decZero))

/-- One atom of a molecule.  The ogb `atom_to_feature_vector` encoding, the
atomic number (`GetAtomicNum`) and the conformer position (`GetPositions`
row) are carried as data, since the encoders are external black boxes. -/
structure Atom where
  feat : List Int
  z : Int
  pos : Dec × Dec × Dec
deriving DecidableEq, Repr

/-- One bond: begin/end atom indices and the ogb `bond_to_feature_vector`
encoding carried as data. -/
structure Bond where
  beginIdx : Nat
  endIdx : Nat
  feat : List Int
deriving DecidableEq, Repr

/-- A molecule as the pipeline consumes it: ordered atoms (indexed `0..n-1`),
bonds, and the free-text key/value property annotations (`GetPropsAsDict`,
insertion-ordered). -/
structure Mol where
  atoms : List Atom
  bonds : List Bond
  props : List (String × String)
deriving DecidableEq, Repr

/-- The `torch_geometric.data.Data` record built by `mol2graph`:
`edge_index` is kept as the list of its columns. -/
structure Graph where
  x : List (List Int)
  edge_index : List (Nat × Nat)
  edge_attr : List (List Int)
  pos : List (Dec × Dec × Dec)
  z : List Int
deriving DecidableEq, Repr

/-- Node count of a graph (the row count of `x`).  The source calls
`graph.number_of_nodes()`; due to the Python short-circuit in the chained
comparison that call only happens when the label and mask lengths already
differ, which the pipeline never produces. -/
def Graph.number_of_nodes (g : Graph) : Nat := g.x.length

/-- The per-bond loop body of `mol2graph`: for each bond append the edge
`(i, j)` and then `(j, i)`, each paired with the bond feature vector computed
once per bond (src/utils/loader.py lines 61-71). -/
def buildEdges : List Bond → List (Nat × Nat) × List (List Int)
  | [] => ([], [])
  | b :: rest =>
    ((b.beginIdx, b.endIdx) :: (b.endIdx, b.beginIdx) :: (buildEdges rest).1,
     b.feat :: b.feat :: (buildEdges rest).2)

/-- `DatasetBuilder.mol2graph` (src/utils/loader.py lines 45-91): node
features, coordinates and atomic numbers in atom order; for a molecule with
at least one bond, bidirectional edges in bond order; `None` when the
molecule has no bonds. -/
def mol2graph (mol : Mol) : Option Graph :=
  if mol.bonds.length > 0 then
    some { x := mol.atoms.map (fun a => a.feat)
         , edge_index := (buildEdges mol.bonds).1
         , edge_attr := (buildEdges mol.bonds).2
         , pos := mol.atoms.map (fun a => a.pos)
         , z := mol.atoms.map (fun a => a.z) }
  else
    Option.none

/-- A value of the `atom_shifts` dict in `get_carbon_shift`: either the raw
list of collected observations, or a single number (the aggregated median,
or the `0` placeholder written into the label vector). -/
inductive ShiftVal where
  | raw (l : List Dec)
  | single (q : Dec)
deriving DecidableEq, Repr

/-- Parse one observation group `"<float>;<ignored>;<int>"`: the unpacking
`[shift_value, _, shift_idx] = shift.split(';')` raises unless the split has
exactly three fields, then the `float` and `int` conversions may raise
(src/utils/loader.py lines 208-209). -/
def parseObsGroup (s : String) : Except String (Dec × Int) :=
  match pySplit ';' s with
  | [sv, _, si] =>
    match pyFloat? sv with
    | Option.none => Except.error "ValueError: could not convert string to float"
    | some v =>
      match pyInt? si with
      | Option.none => Except.error "ValueError: invalid literal for int"
      | some i => Except.ok (v, i)
  | _ => Except.error "ValueError: unpack"

/-- Append an observation to the dict entry of `idx`, creating the entry at
the end on first insertion (Python dict insertion order). -/
def addShift (m : List (Int × List Dec)) (idx : Int) (v : Dec) : List (Int × List Dec) :=
  match m with
  | [] => [(idx, [v])]
  | (k, l) :: rest =>
    if k = idx then (k, l ++ [v]) :: rest else (k, l) :: addShift rest idx v

/-- The inner loop of `get_carbon_shift` over the observation groups of one
property value: any parse error propagates (the Python code catches
nothing). -/
def parseGroups (gs : List String) (m : List (Int × List Dec)) :
    Except String (List (Int × List Dec)) :=
  match gs with
  | [] => Except.ok m
  | g :: rest =>
    match parseObsGroup g with
    | Except.error e => Except.error e
    | Except.ok vi => parseGroups rest (addShift m vi.2 vi.1)

/-- The final segment of the primary split is discarded before parsing:
`mol_props[key].split('|')[:-1]` (src/utils/loader.py line 207). -/
def parseSegments (gs : List String) (m : List (Int × List Dec)) :
    Except String (List (Int × List Dec)) :=
  parseGroups gs.dropLast m

/-- Parse one spectral annotation property value into the accumulated
observation dict: split on `'|'`, drop the last segment, parse each group. -/
def parsePropValue (v : String) (m : List (Int × List Dec)) :
    Except String (List (Int × List Dec)) :=
  parseSegments (pySplit '|' v) m

/-- The property loop of `get_carbon_shift` (src/utils/loader.py lines
205-213): every property whose key starts with `"Spectrum 13C"` contributes
its observation groups into one shared dict. -/
def collectProps (props : List (String × String)) (m : List (Int × List Dec)) :
    Except String (List (Int × List Dec)) :=
  match props with
  | [] => Except.ok m
  | (k, v) :: rest =>
    if pyStartsWith k "Spectrum 13C" then
      match parsePropValue v m with
      | Except.error e => Except.error e
      | Except.ok m2 => collectProps rest m2
    else collectProps rest m

/-- The aggregation loop `for j in range(mol.GetNumAtoms()): if j in
atom_shifts: atom_shifts[j] = np.median(atom_shifts[j])` (src/utils/loader.py
lines 215-217): exactly the entries whose key lies in `[0, numAtoms)` are
replaced in place by their median; every other entry keeps its raw list. -/
def aggregate (numAtoms : Nat) (m : List (Int × List Dec)) : List (Int × ShiftVal) :=
  m.map (fun p =>
    (p.1, if 0 ≤ p.1 ∧ p.1 < (numAtoms : Int) then ShiftVal.single (npMedian p.2)
          else ShiftVal.raw p.2))

/-- `CarbonDatasetBuilder.get_carbon_shift` (src/utils/loader.py lines
198-219): collect all observations from matching properties, then aggregate
in-range atom indices by the median.  A parse failure raises. -/
def get_carbon_shift (mol : Mol) : Except String (List (Int × ShiftVal)) :=
  match collectProps mol.props [] with
  | Except.error e => Except.error e
  | Except.ok m => Except.ok (aggregate mol.atoms.length m)

/-- An entry of the assembled dataset: the `(graph, label, mask)` triple the
assembler appends to `graph_list` / `label_list` / `mask_list`.  A label
entry is a `ShiftVal`: the pipeline stores the aggregated value (via
`str`/`ast.literal_eval` round-trip, the identity on our exact values) for
annotated atoms and the number `0` elsewhere. -/
structure LabeledExample where
  graph : Graph
  label : List ShiftVal
  mask : List Bool
deriving DecidableEq, Repr

/-- The mismatch guard `shift.shape[0] != mask.shape[0] != graph.number_of_nodes()`
(src/utils/loader.py line 179).  Python chained-comparison semantics: the
expression means `a != b and b != c` (with short-circuit), NOT the
three-way inequality test. -/
def consistencyReject (a b c : Nat) : Bool :=
  (a != b) && (b != c)

/-- The label vector of the per-molecule loop (src/utils/loader.py lines
167-176): entry `i` is the stored shift for annotated atom `i`, the number
`0` otherwise. -/
def buildLabel (shifts : List (Int × ShiftVal)) (n : Nat) : List ShiftVal :=
  (List.range n).map (fun (i : Nat) => (shifts.lookup (i : Int)).getD (ShiftVal.single decZero))

/-- The mask vector of the per-molecule loop (src/utils/loader.py lines
167-177): entry `i` is true iff atom `i` has an entry in `atom_shifts`. -/
def buildMask (shifts : List (Int × ShiftVal)) (n : Nat) : List Bool :=
  (List.range n).map (fun (i : Nat) => (shifts.lookup (i : Int)).isSome)

/-- The body of the per-molecule loop of `CarbonDatasetBuilder.process`
(src/utils/loader.py lines 152-185) for one non-`None` molecule:
`Except.ok Option.none` models `continue` (molecule skipped),
`Except.ok (some ex)` an accepted example, and `Except.error` an uncaught
exception escaping the loop. -/
def processStep (mol : Mol) : Except String (Option LabeledExample) :=
  match mol2graph mol with
  | Option.none => Except.ok Option.none
  | some graph =>
    match get_carbon_shift mol with
    | Except.error e => Except.error e
    | Except.ok shifts =>
      if shifts.length = 0 then Except.ok Option.none
      else
        if consistencyReject (buildLabel shifts mol.atoms.length).length
            (buildMask shifts mol.atoms.length).length graph.number_of_nodes then
          Except.ok Option.none
        else
          Except.ok (some ⟨graph, buildLabel shifts mol.atoms.length,
                           buildMask shifts mol.atoms.length⟩)

/-- the molecule loop of `CarbonDatasetBuilder.process` over the supplier output
(`None` entries model unparsable molecules).  An exception raised by any
step is not caught anywhere in `process`: it aborts the whole loop and no
dataset is produced. -/
def processAll (mols : List (Option Mol)) : Except String (List LabeledExample) :=
  match mols with
  | [] => Except.ok []
  | Option.none :: rest => processAll rest
  | some mol :: rest =>
    match processStep mol with
    | Except.error e => Except.error e
    | Except.ok Option.none => processAll rest
    | Except.ok (some ex) =>
      match processAll rest with
      | Except.error e => Except.error e
      | Except.ok exs => Except.ok (ex :: exs)

/-! ### The split utility (`train_val_test_split`, src/utils.py lines 29-81)

A size argument is `None`, an int, or a float fraction; fractions are
modelled as exact rationals (`dset_len * frac` is computed and rounded
exactly; the claims under study do not depend on binary-float rounding of
the product). -/

/-- One of the three size arguments of `train_val_test_split`: Python
`None`, an `int` count, or a `float` fraction. -/
inductive SizeSpec where
  | unset
  | count (n : Int)
  | frac (q : ℚ)
deriving DecidableEq, Repr

/-- Whether the argument was given as a float (`isinstance(x, float)`). -/
def SizeSpec.isFrac : SizeSpec → Bool
  | .frac _ => true
  | _ => false

/-- Models the Python `round()` builtin (round-half-to-even). -/
def pyRound (q : ℚ) : Int :=
  if q - ⌊q⌋ < 1/2 then ⌊q⌋
  else if 1/2 < q - ⌊q⌋ then ⌊q⌋ + 1
  else if ⌊q⌋ % 2 = 0 then ⌊q⌋ else ⌊q⌋ + 1

/-- Resolve one size argument (src/utils.py lines 42-44): a fraction is
turned into a count by `round(dset_len * size)`, an int is kept, `None`
stays unresolved. -/
def SizeSpec.resolve (dset_len : Nat) : SizeSpec → Option Int
  | .unset => Option.none
  | .count n => some n
  | .frac q => some (pyRound ((dset_len : ℚ) * q))

/-- The three counts after fraction conversion and `None` inference
(src/utils.py lines 42-51) but before rounding-drift compensation;
`Option.none` models the leading assert firing because more than one size
is `None`. -/
def resolvedPre (dset_len : Nat) (train_size val_size test_size : SizeSpec) :
    Option (Int × Int × Int) :=
  match train_size.resolve dset_len, val_size.resolve dset_len,
        test_size.resolve dset_len with
  | Option.none, some v, some te => some ((dset_len : Int) - v - te, v, te)
  | some t, Option.none, some te => some (t, (dset_len : Int) - t - te, te)
  | some t, some v, Option.none => some (t, v, (dset_len : Int) - t - v)
  | some t, some v, some te => some (t, v, te)
  | _, _, _ => Option.none

/-- The rounding-drift compensation (src/utils.py lines 53-59): when the
resolved counts exceed the dataset length, decrement the first
fraction-derived size in the order test, validation, train; when none of
the three was given as a float, nothing changes. -/
def compensate (dset_len : Nat) (train_size val_size test_size : SizeSpec)
    (t v te : Int) : Int × Int × Int :=
  if t + v + te > (dset_len : Int) then
    if test_size.isFrac then (t, v, te - 1)
    else if val_size.isFrac then (t, v - 1, te)
    else if train_size.isFrac then (t - 1, v, te)
    else (t, v, te)
  else (t, v, te)

/-- The resolved counts of `train_val_test_split` after compensation. -/
def resolveCounts (dset_len : Nat) (train_size val_size test_size : SizeSpec) :
    Option (Int × Int × Int) :=
  (resolvedPre dset_len train_size val_size test_size).map
    (fun p => compensate dset_len train_size val_size test_size p.1 p.2.1 p.2.2)

/-- The three index arrays returned by `train_val_test_split`. -/
structure SplitResult where
  idx_train : List Nat
  idx_val : List Nat
  idx_test : List Nat
deriving DecidableEq, Repr

/-- The contiguous slicing of the permuted index array (src/utils.py lines
77-79): `idxs[:t]`, `idxs[t:t+v]`, `idxs[t+v:t+v+te]`. -/
def sliceSplit (idxs : List Nat) (t v te : Nat) : SplitResult :=
  { idx_train := idxs.take t
  , idx_val := (idxs.drop t).take v
  , idx_test := (idxs.drop (t + v)).take te }

/-- `train_val_test_split` (src/utils.py lines 29-81).  The permuted index
array `idxs` (`np.random.default_rng(seed).permutation(np.arange(dset_len))`,
always a permutation of `0..dset_len-1`) is passed explicitly since the
numpy generator is an external black box.  `Option.none` models a failing
assert (fatal error). -/
def train_val_test_split (dset_len : Nat)
    (train_size val_size test_size : SizeSpec) (idxs : List Nat) :
    Option SplitResult :=
  match resolveCounts dset_len train_size val_size test_size with
  | Option.none => Option.none
  | some (t, v, te) =>
    if 0 ≤ t ∧ 0 ≤ v ∧ 0 ≤ te then
      if t + v + te ≤ (dset_len : Int) then
        some (sliceSplit idxs t.toNat v.toNat te.toNat)
      else Option.none
    else Option.none

/-! ### The `CarbonDataset.process` variant (src/loader/carbon.py lines 38-94)

That loop calls `extract_carbon_shift`, `is_valid_molecule`, `mol_to_coords`
and `mol_to_graph` from `loader/process.py`, a module that is not part of
the reviewed sources; they are passed as parameters, with only the node
count of the `mol_to_graph` output modelled from the spec. -/

/-- Modelled from the spec: `mol_to_graph` (in the missing module
`loader/process.py`) produces, per §4.3 of the spec, a node feature matrix
whose row count is the atom count of the molecule; `data.__num_nodes__` is that
count.  Only the node count is needed here. -/
def mol_to_graph_num_nodes (mol : Mol) : Nat := mol.atoms.length

/-- The fields of the `Data` record built by `CarbonDataset.process` that
the claims concern: node count, label vector `y`, and `mask`. -/
structure CarbonData where
  num_nodes : Nat
  y : List ShiftVal
  mask : List Bool
deriving DecidableEq, Repr

/-- The label/mask construction of `CarbonDataset.process` (src/loader/carbon.py
lines 57-79) for one molecule that passed validity and conformer checks,
parameterised by the result of the missing `extract_carbon_shift`. -/
def carbonProcessStep (carbon_shifts : List (Int × ShiftVal)) (mol : Mol) : CarbonData :=
  { num_nodes := mol_to_graph_num_nodes mol
  , y := buildLabel carbon_shifts mol.atoms.length
  , mask := buildMask carbon_shifts mol.atoms.length }

/-! ### Concrete molecules used to instantiate the theorems -/

/-- A carbon atom with an arbitrary fixed feature vector and origin position. -/
def atomC : Atom := ⟨[5], 6, (decZero, decZero, decZero)⟩

/-- A default bond used only as the `getD` fallback. -/
def dummyBond : Bond := ⟨0, 0, []⟩

/-- Two bonded carbons with one well-formed spectral annotation. -/
def c2goodMol : Mol :=
  ⟨[atomC, atomC], [⟨0, 1, [1, 0, 0]⟩], [("Spectrum 13C 0", "10.0;X;0|")]⟩

/-- Two bonded carbons whose spectral annotation holds a malformed
observation group (`"bad"` does not split on `';'` into three fields). -/
def c2badMol : Mol :=
  ⟨[atomC, atomC], [⟨0, 1, [1, 0, 0]⟩], [("Spectrum 13C 0", "bad|")]⟩

/-- One carbon with two observations for atom index 0 (the Spectrum
Extractor example of the spec, namely `"1.23;X;0|4.56;X;0|"`). -/
def c5mol : Mol := ⟨[atomC], [], [("Spectrum 13C 0", "1.23;X;0|4.56;X;0|")]⟩

/-- A one-atom molecule whose annotation carries only the out-of-range atom
index 5. -/
def c6mol : Mol := ⟨[atomC], [], [("Spectrum 13C 0", "1.0;X;5|2.0;X;5|")]⟩

/-- A one-atom molecule whose annotation carries both the in-range atom
index 0 and the out-of-range atom index 7. -/
def c6mol2 : Mol := ⟨[atomC], [], [("Spectrum 13C 0", "1.0;X;0|2.0;X;0|3.0;X;7|")]⟩

/-- Two bonded carbons, one annotated atom: yields one retained example. -/
def c7mol : Mol :=
  ⟨[atomC, atomC], [⟨0, 1, [1, 0, 0]⟩], [("Spectrum 13C 0", "10.0;X;0|")]⟩

/-- The retained example produced from `c7mol`. -/
def c7ex : LabeledExample :=
  ⟨⟨[[5], [5]], [(0, 1), (1, 0)], [[1, 0, 0], [1, 0, 0]],
    [(decZero, decZero, decZero), (decZero, decZero, decZero)], [6, 6]⟩,
   [ShiftVal.single ⟨100, 1⟩, ShiftVal.single decZero], [true, false]⟩

/-- Three atoms with bonds `(0,1)` and `(1,2)` (the Graph Builder
example of the spec) carrying distinct bond feature vectors. -/
def c8mol : Mol :=
  ⟨[atomC, atomC, atomC], [⟨0, 1, [1, 0, 0]⟩, ⟨1, 2, [2, 0, 0]⟩], []⟩

/-- A molecule with two atoms and zero bonds. -/
def c9mol : Mol := ⟨[atomC, atomC], [], [("Spectrum 13C 0", "10.0;X;0|")]⟩

/-- Two atoms; the annotation value does not end with the primary delimiter,
so its final triple `2.0;X;1` is in the discarded last segment. -/
def c10mol : Mol := ⟨[atomC, atomC], [], [("Spectrum 13C 0", "1.0;X;0|2.0;X;1")]⟩

/-! ### Claim theorems -/

/-- Looking an atom index up in the aggregated map is looking it up in the
raw dict and aggregating the found entry according to its range. -/
theorem lookup_aggregate (numAtoms : Nat) (m : List (Int × List Dec)) (k : Int) :
    (aggregate numAtoms m).lookup k = (m.lookup k).map
      (fun l => if 0 ≤ k ∧ k < (numAtoms : Int) then ShiftVal.single (npMedian l)
                else ShiftVal.raw l) := by
  induction m with
  | nil => simp [aggregate]
  | cons p rest ih =>
    rcases p with ⟨a, l⟩
    by_cases hka : k = a
    · subst hka
      simp [aggregate, List.lookup]
    · have hb : (k == a) = false := by simpa using hka
      simpa [aggregate, List.lookup, hb] using ih

/-- C1: the claim says the consistency check drops a molecule on any mismatch
among label length, mask length and graph atom count — including when label
and mask lengths agree but differ from the atom count.  The guard in the code is
the Python chained comparison `a != b != c`, i.e. `a ≠ b ∧ b ≠ c`: at the
failing input `(2, 2, 3)` it evaluates to false, so the molecule is NOT
rejected even though the graph atom count differs — contradicting the
defensive invariant stated by the spec (a bug the spec itself flags). -/
theorem C1_chained_check_misses_mismatch :
    consistencyReject 2 2 3 = false ∧ ¬((2 : Nat) = 2 ∧ (2 : Nat) = 3) := by
  decide

/-- C2 counterexample: the claim says a malformed observation triple makes
the extractor raise and the calling pipeline stage catches the failure,
skipping only that molecule and never aborting the batch.  In the code
`CarbonDatasetBuilder.process` wraps no try/except around
`get_carbon_shift`, so the raised `ValueError` escapes the loop: processing
the batch `[c2badMol, c2goodMol]` aborts with the error, and the following
well-formed molecule (processable on its own) is never reached. -/
theorem C2_counterexample :
    processAll [some c2badMol, some c2goodMol] = Except.error "ValueError: unpack" ∧
    ∃ ex, processAll [some c2goodMol] = Except.ok [ex] := by
  exact ⟨by decide, ⟨_, rfl⟩⟩

/-- C2 amended: a malformed observation triple makes the spectrum extractor
raise a parse error, but the pipeline stage calling it catches nothing: the
error propagates out of the per-molecule loop and aborts the whole batch
(no molecule after the failing one is processed, and no dataset is
produced). -/
theorem C2_amended_error_aborts_batch (mol : Mol) (rest : List (Option Mol))
    (e : String) (hg : mol2graph mol ≠ Option.none)
    (he : get_carbon_shift mol = Except.error e) :
    processAll (some mol :: rest) = Except.error e := by
  rcases hgr : mol2graph mol with _ | g
  · exact absurd hgr hg
  · simp [processAll, processStep, hgr, he]

/-- C2 witness: the amended behaviour at the concrete malformed molecule. -/
theorem C2_amended_witness :
    processAll (some c2badMol :: [some c2goodMol]) = Except.error "ValueError: unpack" :=
  C2_amended_error_aborts_batch c2badMol [some c2goodMol] "ValueError: unpack"
    (by decide) (by decide)

/-- C9: a molecule with zero bonds yields no Graph — `mol2graph` returns
`None` exactly when the bond list is empty (so never an empty-edge-list
Graph) — and the pipeline then skips the molecule. -/
theorem C9_zero_bonds_no_graph (mol : Mol) :
    (mol2graph mol = Option.none ↔ mol.bonds = []) ∧
    (mol.bonds = [] → processStep mol = Except.ok Option.none) := by
  have hb : mol2graph mol = Option.none ↔ mol.bonds = [] := by
    unfold mol2graph
    rcases mol.bonds with _ | ⟨b, bs⟩ <;> simp
  exact ⟨hb, fun h => by simp [processStep, hb.mpr h]⟩

/-- C9 witness: the zero-bond molecule `c9mol` gets no graph and is
skipped. -/
theorem C9_witness : processStep c9mol = Except.ok Option.none :=
  (C9_zero_bonds_no_graph c9mol).2 rfl

/-- C10: the extractor splits a property value on `'|'` and unconditionally
discards the final segment: the parse result does not depend on the final
segment at all; a value not ending in `'|'` silently loses its last
observation triple (no parse error, no recorded observation), while a value
ending in `'|'` loses only the empty trailing segment. -/
theorem C10_final_segment_discarded :
    (∀ (sgs : List String) (last1 last2 : String) (m : List (Int × List Dec)),
        parseSegments (sgs ++ [last1]) m = parseSegments (sgs ++ [last2]) m) ∧
    parsePropValue "1.0;X;0|2.0;X;1" [] = Except.ok [(0, [⟨10, 1⟩])] ∧
    parsePropValue "1.0;X;0|2.0;X;1|" [] = Except.ok [(0, [⟨10, 1⟩]), (1, [⟨20, 1⟩])] ∧
    parsePropValue "1.0;X;0|not a triple at all" [] = Except.ok [(0, [⟨10, 1⟩])] ∧
    get_carbon_shift c10mol = Except.ok [(0, ShiftVal.single ⟨10, 1⟩)] := by
  refine ⟨fun sgs last1 last2 m => ?_, by decide, by decide, by decide, by decide⟩
  simp [parseSegments, List.dropLast_concat]

/-- C5: whenever the spectrum extractor collects a list `l` of shift
observations for an atom index `i` of the molecule (whether from one
matching annotation property or from several — `collectProps` folds them
all into one dict), the value the returned map finally associates with `i`
is the median of `l`. -/
theorem C5_same_index_median (mol : Mol) (m : List (Int × List Dec)) (i : Nat)
    (l : List Dec)
    (hcol : collectProps mol.props [] = Except.ok m)
    (hi : i < mol.atoms.length)
    (hl : m.lookup (i : Int) = some l) :
    get_carbon_shift mol = Except.ok (aggregate mol.atoms.length m) ∧
    (aggregate mol.atoms.length m).lookup (i : Int) =
      some (ShiftVal.single (npMedian l)) := by
  refine ⟨by simp [get_carbon_shift, hcol], ?_⟩
  rw [lookup_aggregate, hl]
  have hr : 0 ≤ (i : Int) ∧ (i : Int) < (mol.atoms.length : Int) := by omega
  simp [hr]

/-- C5 witness: the concrete spec example `"1.23;X;0|4.56;X;0|"` yields the
one-entry map sending atom index 0 to the median of `[1.23, 4.56]`, whose
value is `2.895 = 579/200`. -/
theorem C5_witness :
    get_carbon_shift c5mol = Except.ok [(0, ShiftVal.single ⟨289500, 5⟩)] ∧
    Dec.toRat ⟨289500, 5⟩ = 579 / 200 ∧
    (aggregate c5mol.atoms.length [((0 : Int), [⟨123, 2⟩, ⟨456, 2⟩])]).lookup (0 : Int)
      = some (ShiftVal.single (npMedian [⟨123, 2⟩, ⟨456, 2⟩])) :=
  ⟨by decide, by norm_num [Dec.toRat],
   (C5_same_index_median c5mol [((0 : Int), [⟨123, 2⟩, ⟨456, 2⟩])] 0
      [⟨123, 2⟩, ⟨456, 2⟩] (by decide) (by decide) (by decide)).2⟩

/-- C6 counterexample: the claim says every key of the returned map is an
atom index in `[0, n_atoms)` and every value a single aggregated float.
For the one-atom molecule `c6mol`, whose annotation carries atom index 5,
the extractor returns the map `{5: [1.0, 2.0]}`: the key is out of range and
the value is the unaggregated raw observation list (the aggregation loop
only runs over `range(mol.GetNumAtoms())`). -/
theorem C6_counterexample :
    get_carbon_shift c6mol = Except.ok [(5, ShiftVal.raw [⟨10, 1⟩, ⟨20, 1⟩])] ∧
    c6mol.atoms.length = 1 := by
  decide

/-- C6 amended: every entry of the returned map whose key is an atom index
in `[0, n_atoms)` carries a single value, the median of its collected
observations; an entry whose key lies outside that range (possible when an
annotation carries an out-of-range atom index) stays in the map with its
unaggregated raw observation list. -/
theorem C6_amended_in_range_median (mol : Mol) (m : List (Int × List Dec))
    (k : Int) (l : List Dec)
    (hcol : collectProps mol.props [] = Except.ok m)
    (hm : (k, l) ∈ m) :
    get_carbon_shift mol = Except.ok (aggregate mol.atoms.length m) ∧
    (k, if 0 ≤ k ∧ k < (mol.atoms.length : Int) then ShiftVal.single (npMedian l)
        else ShiftVal.raw l) ∈ aggregate mol.atoms.length m := by
  refine ⟨by simp [get_carbon_shift, hcol], ?_⟩
  simpa [aggregate] using List.mem_map_of_mem
    (fun p => (p.1, if 0 ≤ p.1 ∧ p.1 < (mol.atoms.length : Int)
                    then ShiftVal.single (npMedian p.2) else ShiftVal.raw p.2)) hm

/-- C6 witness: for `c6mol2` (annotation with in-range index 0 and
out-of-range index 7 on a one-atom molecule), the amended statement applied
to both entries of the collected dict. -/
theorem C6_amended_witness :
    (((0 : Int), if 0 ≤ (0 : Int) ∧ (0 : Int) < (c6mol2.atoms.length : Int)
        then ShiftVal.single (npMedian [⟨10, 1⟩, ⟨20, 1⟩])
        else ShiftVal.raw [⟨10, 1⟩, ⟨20, 1⟩])
      ∈ aggregate c6mol2.atoms.length [((0 : Int), [⟨10, 1⟩, ⟨20, 1⟩]), ((7 : Int), [⟨30, 1⟩])]) ∧
    (((7 : Int), if 0 ≤ (7 : Int) ∧ (7 : Int) < (c6mol2.atoms.length : Int)
        then ShiftVal.single (npMedian [⟨30, 1⟩])
        else ShiftVal.raw [⟨30, 1⟩])
      ∈ aggregate c6mol2.atoms.length [((0 : Int), [⟨10, 1⟩, ⟨20, 1⟩]), ((7 : Int), [⟨30, 1⟩])]) :=
  ⟨(C6_amended_in_range_median c6mol2 [((0 : Int), [⟨10, 1⟩, ⟨20, 1⟩]), ((7 : Int), [⟨30, 1⟩])]
      0 [⟨10, 1⟩, ⟨20, 1⟩] (by decide) (by decide)).2,
   (C6_amended_in_range_median c6mol2 [((0 : Int), [⟨10, 1⟩, ⟨20, 1⟩]), ((7 : Int), [⟨30, 1⟩])]
      7 [⟨30, 1⟩] (by decide) (by decide)).2⟩

/-- The edge and edge-feature lists built by the bond loop both have twice
as many entries as there are bonds. -/
theorem buildEdges_lengths (bs : List Bond) :
    (buildEdges bs).1.length = 2 * bs.length ∧
    (buildEdges bs).2.length = 2 * bs.length := by
  induction bs with
  | nil => simp [buildEdges]
  | cons b rest ih =>
    simp only [buildEdges, List.length_cons, ih.1, ih.2]
    constructor <;> omega

/-- Entry `k` of the built edge list is direction `k % 2` of bond `k / 2`,
and entry `k` of the edge-feature list is the feature vector of that bond. -/
theorem buildEdges_getD (bs : List Bond) (k : Nat) (hk : k < 2 * bs.length) :
    (buildEdges bs).2.getD k [] = (bs.getD (k / 2) dummyBond).feat ∧
    (buildEdges bs).1.getD k (0, 0) =
      (if k % 2 = 0
       then ((bs.getD (k / 2) dummyBond).beginIdx, (bs.getD (k / 2) dummyBond).endIdx)
       else ((bs.getD (k / 2) dummyBond).endIdx, (bs.getD (k / 2) dummyBond).beginIdx)) := by
  induction bs generalizing k with
  | nil => simp at hk
  | cons b rest ih =>
    rcases k with _ | (_ | n)
    · simp [buildEdges]
    · simp [buildEdges]
    · have hn : n < 2 * rest.length := by
        simp only [List.length_cons] at hk; omega
      have h2 : (n + 2) % 2 = n % 2 := by omega
      have h3 : (n + 2) / 2 = n / 2 + 1 := by omega
      have hr := ih n hn
      simp only [buildEdges, h2, h3, List.getD_cons_succ]
      exact hr

/-- C8: for a molecule whose graph was built, every bond `(i, j)` produces
the two consecutive directed edge columns `2b` and `2b+1` holding `(i, j)`
and `(j, i)`, both paired with the feature vector of the bond, computed once per
bond, and `edge_attr` stays in lock-step with `edge_index`: row `k` of
`edge_attr` is the feature vector of the bond underlying column `k` of
`edge_index` (namely bond `k / 2`). -/
theorem C8_bidirectional_lockstep_edges (mol : Mol) (g : Graph)
    (h : mol2graph mol = some g) :
    g.edge_index.length = 2 * mol.bonds.length ∧
    g.edge_attr.length = 2 * mol.bonds.length ∧
    (∀ k, k < 2 * mol.bonds.length →
      g.edge_attr.getD k [] = (mol.bonds.getD (k / 2) dummyBond).feat ∧
      g.edge_index.getD k (0, 0) =
        (if k % 2 = 0
         then ((mol.bonds.getD (k / 2) dummyBond).beginIdx,
               (mol.bonds.getD (k / 2) dummyBond).endIdx)
         else ((mol.bonds.getD (k / 2) dummyBond).endIdx,
               (mol.bonds.getD (k / 2) dummyBond).beginIdx))) := by
  unfold mol2graph at h
  by_cases hb : mol.bonds.length > 0
  · rw [if_pos hb] at h
    injection h with h
    subst h
    refine ⟨(buildEdges_lengths mol.bonds).1, (buildEdges_lengths mol.bonds).2, ?_⟩
    intro k hk
    exact ⟨(buildEdges_getD mol.bonds k hk).1, (buildEdges_getD mol.bonds k hk).2⟩
  · rw [if_neg hb] at h
    exact absurd h (by simp)

/-- The graph built from `c8mol` (bonds `(0,1)` and `(1,2)`). -/
def c8graph : Graph :=
  ⟨[[5], [5], [5]], [(0, 1), (1, 0), (1, 2), (2, 1)],
   [[1, 0, 0], [1, 0, 0], [2, 0, 0], [2, 0, 0]],
   [(decZero, decZero, decZero), (decZero, decZero, decZero), (decZero, decZero, decZero)],
   [6, 6, 6]⟩

/-- C8 witness: the concrete Graph Builder example of the spec — bonds
`[(0,1), (1,2)]` yield the four edge columns `(0,1), (1,0), (1,2), (2,1)` in
lock-step with the duplicated bond features. -/
theorem C8_witness :
    mol2graph c8mol = some c8graph ∧
    c8graph.edge_index = [(0, 1), (1, 0), (1, 2), (2, 1)] ∧
    (c8graph.edge_index.length = 2 * c8mol.bonds.length ∧
     c8graph.edge_attr.length = 2 * c8mol.bonds.length ∧
     (∀ k, k < 2 * c8mol.bonds.length →
       c8graph.edge_attr.getD k [] = (c8mol.bonds.getD (k / 2) dummyBond).feat ∧
       c8graph.edge_index.getD k (0, 0) =
         (if k % 2 = 0
          then ((c8mol.bonds.getD (k / 2) dummyBond).beginIdx,
                (c8mol.bonds.getD (k / 2) dummyBond).endIdx)
          else ((c8mol.bonds.getD (k / 2) dummyBond).endIdx,
                (c8mol.bonds.getD (k / 2) dummyBond).beginIdx)))) :=
  ⟨by decide, by decide, C8_bidirectional_lockstep_edges c8mol c8graph (by decide)⟩

/-- Reading position `i < n` of a list built by mapping over `range n`. -/
theorem getD_range_map {α : Type} (f : Nat → α) (n i : Nat) (d : α) (hi : i < n) :
    ((List.range n).map f).getD i d = f i := by
  rw [List.getD_eq_getElem?_getD, List.getElem?_map, List.getElem?_range hi]
  rfl

/-- The label vector ranges over all atoms. -/
theorem buildLabel_length (shifts : List (Int × ShiftVal)) (n : Nat) :
    (buildLabel shifts n).length = n := by
  unfold buildLabel
  rw [List.length_map, List.length_range]

/-- The mask vector ranges over all atoms. -/
theorem buildMask_length (shifts : List (Int × ShiftVal)) (n : Nat) :
    (buildMask shifts n).length = n := by
  unfold buildMask
  rw [List.length_map, List.length_range]

/-- An atom whose mask entry is false has the `0` placeholder label: a false
mask means the dict lookup found nothing, so the label stored the number 0. -/
theorem buildMask_false_label_zero (shifts : List (Int × ShiftVal)) (n i : Nat)
    (hi : i < n) (hm : (buildMask shifts n).getD i true = false) :
    (buildLabel shifts n).getD i (ShiftVal.raw []) = ShiftVal.single decZero := by
  unfold buildMask at hm
  rw [getD_range_map _ _ _ _ hi] at hm
  unfold buildLabel
  rw [getD_range_map _ _ _ _ hi]
  rcases hl : shifts.lookup (i : Int) with _ | sv
  · simp
  · rw [hl] at hm; simp at hm

/-- A built graph has one node row per atom. -/
theorem mol2graph_nodes (mol : Mol) (g : Graph) (h : mol2graph mol = some g) :
    g.number_of_nodes = mol.atoms.length := by
  unfold mol2graph at h
  by_cases hb : mol.bonds.length > 0
  · rw [if_pos hb] at h
    injection h with h
    subst h
    simp [Graph.number_of_nodes]
  · rw [if_neg hb] at h
    exact absurd h (by simp)

/-- Shape of an example accepted by the per-molecule loop: label and mask
both range over the atoms of the molecule, the graph has one node row per atom,
and an atom whose mask is false carries the `0` placeholder label. -/
theorem processStep_retained (mol : Mol) (ex : LabeledExample)
    (h : processStep mol = Except.ok (some ex)) :
    ex.label.length = mol.atoms.length ∧
    ex.mask.length = mol.atoms.length ∧
    ex.graph.number_of_nodes = mol.atoms.length ∧
    (∀ i, i < mol.atoms.length → ex.mask.getD i true = false →
      ex.label.getD i (ShiftVal.raw []) = ShiftVal.single decZero) := by
  unfold processStep at h
  split at h
  · exact absurd h (by simp)
  next g hg =>
    split at h
    · exact absurd h (by simp)
    next shifts hs =>
      split at h
      · exact absurd h (by simp)
      · split at h
        · exact absurd h (by simp)
        · injection h with h
          injection h with h
          subst h
          exact ⟨buildLabel_length shifts mol.atoms.length,
                 buildMask_length shifts mol.atoms.length,
                 mol2graph_nodes mol g hg,
                 fun i hi hm => buildMask_false_label_zero shifts mol.atoms.length i hi hm⟩

/-- Every example in a successfully assembled dataset was accepted by the
per-molecule loop for some molecule. -/
theorem processAll_mem (mols : List (Option Mol)) (exs : List LabeledExample)
    (h : processAll mols = Except.ok exs) (ex : LabeledExample) (hex : ex ∈ exs) :
    ∃ mol, processStep mol = Except.ok (some ex) := by
  induction mols generalizing exs with
  | nil =>
    unfold processAll at h
    injection h with h
    subst h
    exact absurd hex (by simp)
  | cons o rest ih =>
    rcases o with _ | mol
    · exact ih exs h hex
    · unfold processAll at h
      split at h
      · exact absurd h (by simp)
      · exact ih exs h hex
      next ex2 hst =>
        split at h
        · exact absurd h (by simp)
        next exs2 hrest =>
          injection h with h
          subst h
          rcases List.mem_cons.mp hex with hhead | htail
          · subst hhead; exact ⟨mol, hst⟩
          · exact ih exs2 hrest htail

/-- C7: every example retained by the assembler has label, mask and graph
node count of equal length, with the `0` placeholder label wherever the mask
is false — both in `CarbonDatasetBuilder.process` (src/utils/loader.py) and
in the `CarbonDataset.process` variant (src/loader/carbon.py), the latter
with the missing `mol_to_graph` node count modelled from the spec. -/
theorem C7_label_mask_graph_aligned :
    (∀ (mols : List (Option Mol)) (exs : List LabeledExample) (ex : LabeledExample),
      processAll mols = Except.ok exs → ex ∈ exs →
      ex.label.length = ex.mask.length ∧
      ex.mask.length = ex.graph.number_of_nodes ∧
      (∀ i, i < ex.mask.length → ex.mask.getD i true = false →
        ex.label.getD i (ShiftVal.raw []) = ShiftVal.single decZero)) ∧
    (∀ (carbon_shifts : List (Int × ShiftVal)) (mol : Mol),
      (carbonProcessStep carbon_shifts mol).y.length =
        (carbonProcessStep carbon_shifts mol).mask.length ∧
      (carbonProcessStep carbon_shifts mol).mask.length =
        (carbonProcessStep carbon_shifts mol).num_nodes ∧
      (∀ i, i < (carbonProcessStep carbon_shifts mol).mask.length →
        (carbonProcessStep carbon_shifts mol).mask.getD i true = false →
        (carbonProcessStep carbon_shifts mol).y.getD i (ShiftVal.raw [])
          = ShiftVal.single decZero)) := by
  constructor
  · intro mols exs ex h hex
    obtain ⟨mol, hst⟩ := processAll_mem mols exs h ex hex
    obtain ⟨h1, h2, h3, h4⟩ := processStep_retained mol ex hst
    refine ⟨h1.trans h2.symm, h2.trans h3.symm, ?_⟩
    intro i hi hm
    exact h4 i (h2 ▸ hi) hm
  · intro carbon_shifts mol
    refine ⟨?_, ?_, ?_⟩
    · show (buildLabel carbon_shifts mol.atoms.length).length =
          (buildMask carbon_shifts mol.atoms.length).length
      rw [buildLabel_length, buildMask_length]
    · show (buildMask carbon_shifts mol.atoms.length).length = mol_to_graph_num_nodes mol
      rw [buildMask_length]
      rfl
    · intro i hi hm
      rw [show (carbonProcessStep carbon_shifts mol).mask =
            buildMask carbon_shifts mol.atoms.length from rfl, buildMask_length] at hi
      exact buildMask_false_label_zero carbon_shifts mol.atoms.length i hi hm

/-- C7 witness: the invariant instantiated on the single retained example of
the concrete batch `[c7mol]`. -/
theorem C7_witness :
    c7ex.label.length = c7ex.mask.length ∧
    c7ex.mask.length = c7ex.graph.number_of_nodes ∧
    (∀ i, i < c7ex.mask.length → c7ex.mask.getD i true = false →
      c7ex.label.getD i (ShiftVal.raw []) = ShiftVal.single decZero) :=
  C7_label_mask_graph_aligned.1 [some c7mol] [c7ex] c7ex (by decide) (by decide)

/-- The three contiguous slices concatenate to a front segment of the
permuted index array. -/
theorem sliceSplit_parts (idxs : List Nat) (t v te : Nat) :
    (sliceSplit idxs t v te).idx_train ++
      ((sliceSplit idxs t v te).idx_val ++ (sliceSplit idxs t v te).idx_test)
      = idxs.take (t + (v + te)) := by
  unfold sliceSplit
  rw [List.take_add, List.take_add]
  rw [List.drop_drop]

/-- Soundness of the contiguous slicing itself, for any slice sizes: the
three parts are no larger than the dataset jointly, pairwise disjoint, and
draw only indices below the dataset length. -/
theorem sliceSplit_sound (dset_len t v te : Nat) (idxs : List Nat)
    (hperm : List.Perm idxs (List.range dset_len)) :
    (sliceSplit idxs t v te).idx_train.length +
      (sliceSplit idxs t v te).idx_val.length +
      (sliceSplit idxs t v te).idx_test.length ≤ dset_len ∧
    List.Disjoint (sliceSplit idxs t v te).idx_train (sliceSplit idxs t v te).idx_val ∧
    List.Disjoint (sliceSplit idxs t v te).idx_train (sliceSplit idxs t v te).idx_test ∧
    List.Disjoint (sliceSplit idxs t v te).idx_val (sliceSplit idxs t v te).idx_test ∧
    (∀ i ∈ (sliceSplit idxs t v te).idx_train, i < dset_len) ∧
    (∀ i ∈ (sliceSplit idxs t v te).idx_val, i < dset_len) ∧
    (∀ i ∈ (sliceSplit idxs t v te).idx_test, i < dset_len) := by
  have hnd : idxs.Nodup := hperm.nodup_iff.mpr (List.nodup_range dset_len)
  have hlen : idxs.length = dset_len := by
    rw [hperm.length_eq, List.length_range]
  have htake : (idxs.take (t + (v + te))).Nodup :=
    hnd.sublist (List.take_sublist (t + (v + te)) idxs)
  rw [← sliceSplit_parts] at htake
  rw [List.nodup_append] at htake
  obtain ⟨hA, hBC, hAdisj⟩ := htake
  rw [List.nodup_append] at hBC
  obtain ⟨hB, hC, hBdisj⟩ := hBC
  rw [List.disjoint_append_right] at hAdisj
  have hmem : ∀ i ∈ idxs, i < dset_len := by
    intro i hi
    have := hperm.subset hi
    exact List.mem_range.mp this
  have hsub : ∀ i, (i ∈ (sliceSplit idxs t v te).idx_train ∨
      i ∈ (sliceSplit idxs t v te).idx_val ∨ i ∈ (sliceSplit idxs t v te).idx_test) →
      i ∈ idxs := by
    intro i hi
    rcases hi with h1 | h2 | h3
    · exact List.take_subset t idxs h1
    · exact List.drop_subset t idxs (List.take_subset v (idxs.drop t) h2)
    · exact List.drop_subset (t + v) idxs (List.take_subset te (idxs.drop (t + v)) h3)
  refine ⟨?_, hAdisj.1, hAdisj.2, hBdisj, ?_, ?_, ?_⟩
  · have := List.length_append
      ((sliceSplit idxs t v te).idx_train)
      ((sliceSplit idxs t v te).idx_val ++ (sliceSplit idxs t v te).idx_test)
    have h2 := congrArg List.length (sliceSplit_parts idxs t v te)
    rw [List.length_append, List.length_append] at h2
    have h3 : (idxs.take (t + (v + te))).length ≤ idxs.length := by
      rw [List.length_take]
      omega
    omega
  · exact fun i hi => hmem i (hsub i (Or.inl hi))
  · exact fun i hi => hmem i (hsub i (Or.inr (Or.inl hi)))
  · exact fun i hi => hmem i (hsub i (Or.inr (Or.inr hi)))

/-- C3: whenever `train_val_test_split` returns index sets (for any dataset
length, any admissible size arguments, and the permuted index array the
numpy generator produces), the three sets jointly hold at most `dset_len`
indices, are pairwise disjoint, and contain only indices in
`[0, dset_len)`. -/
theorem C3_split_sound (dset_len : Nat)
    (train_size val_size test_size : SizeSpec) (idxs : List Nat) (r : SplitResult)
    (hperm : List.Perm idxs (List.range dset_len))
    (h : train_val_test_split dset_len train_size val_size test_size idxs = some r) :
    r.idx_train.length + r.idx_val.length + r.idx_test.length ≤ dset_len ∧
    List.Disjoint r.idx_train r.idx_val ∧
    List.Disjoint r.idx_train r.idx_test ∧
    List.Disjoint r.idx_val r.idx_test ∧
    (∀ i ∈ r.idx_train, i < dset_len) ∧
    (∀ i ∈ r.idx_val, i < dset_len) ∧
    (∀ i ∈ r.idx_test, i < dset_len) := by
  unfold train_val_test_split at h
  split at h
  · exact absurd h (by simp)
  next t v te hrc =>
    split at h
    · split at h
      · injection h with h
        subst h
        exact sliceSplit_sound dset_len t.toNat v.toNat te.toNat idxs hperm
      · exact absurd h (by simp)
    · exact absurd h (by simp)

/-- C3 witness: a concrete split of ten indices with one unset size. -/
theorem C3_witness :
    (sliceSplit (List.range 10) 5 3 2).idx_train.length +
      (sliceSplit (List.range 10) 5 3 2).idx_val.length +
      (sliceSplit (List.range 10) 5 3 2).idx_test.length ≤ 10 ∧
    List.Disjoint (sliceSplit (List.range 10) 5 3 2).idx_train
      (sliceSplit (List.range 10) 5 3 2).idx_val ∧
    List.Disjoint (sliceSplit (List.range 10) 5 3 2).idx_train
      (sliceSplit (List.range 10) 5 3 2).idx_test ∧
    List.Disjoint (sliceSplit (List.range 10) 5 3 2).idx_val
      (sliceSplit (List.range 10) 5 3 2).idx_test ∧
    (∀ i ∈ (sliceSplit (List.range 10) 5 3 2).idx_train, i < 10) ∧
    (∀ i ∈ (sliceSplit (List.range 10) 5 3 2).idx_val, i < 10) ∧
    (∀ i ∈ (sliceSplit (List.range 10) 5 3 2).idx_test, i < 10) :=
  C3_split_sound 10 (SizeSpec.count 5) (SizeSpec.count 3) SizeSpec.unset
    (List.range 10) (sliceSplit (List.range 10) 5 3 2)
    (List.Perm.refl (List.range 10)) (by decide)

/-- C4 counterexample: the claim says that whenever the sum of the three
resolved counts exceeds the dataset length, exactly one count is
decremented.  With all three sizes given as ints — `dset_len = 10`,
`train = 6`, `val = 5`, `test = 0`, summing to `11 > 10` — the compensation
branch of the code decrements nothing (it only ever decrements a
fraction-derived size), leaving the counts `(6, 5, 0)` unchanged, and the
computation then fails. -/
theorem C4_counterexample :
    resolvedPre 10 (SizeSpec.count 6) (SizeSpec.count 5) (SizeSpec.count 0)
      = some (6, 5, 0) ∧
    (6 : Int) + 5 + 0 > (10 : Int) ∧
    resolveCounts 10 (SizeSpec.count 6) (SizeSpec.count 5) (SizeSpec.count 0)
      = some (6, 5, 0) ∧
    train_val_test_split 10 (SizeSpec.count 6) (SizeSpec.count 5) (SizeSpec.count 0)
      (List.range 10) = Option.none := by
  decide

/-- C4 amended: if the sum of the three resolved counts exceeds the dataset
length, at most one count is decremented by one — the first fraction-derived
size in the fixed priority order test, then validation, then train; when
none of the three sizes was fraction-derived, no count changes.  Under at
most one unset size, the computation fails (returns no splits) if and only
if, after this compensation, some resolved count is negative or the three
counts still jointly exceed the dataset length. -/
theorem C4_amended_compensation (dset_len : Nat)
    (train_size val_size test_size : SizeSpec) (idxs : List Nat) (t v te : Int)
    (h : resolvedPre dset_len train_size val_size test_size = some (t, v, te)) :
    resolveCounts dset_len train_size val_size test_size
      = some (compensate dset_len train_size val_size test_size t v te) ∧
    (t + v + te ≤ (dset_len : Int) →
      compensate dset_len train_size val_size test_size t v te = (t, v, te)) ∧
    (t + v + te > (dset_len : Int) → test_size.isFrac = true →
      compensate dset_len train_size val_size test_size t v te = (t, v, te - 1)) ∧
    (t + v + te > (dset_len : Int) → test_size.isFrac = false → val_size.isFrac = true →
      compensate dset_len train_size val_size test_size t v te = (t, v - 1, te)) ∧
    (t + v + te > (dset_len : Int) → test_size.isFrac = false → val_size.isFrac = false →
      train_size.isFrac = true →
      compensate dset_len train_size val_size test_size t v te = (t - 1, v, te)) ∧
    (t + v + te > (dset_len : Int) → test_size.isFrac = false → val_size.isFrac = false →
      train_size.isFrac = false →
      compensate dset_len train_size val_size test_size t v te = (t, v, te)) ∧
    (train_val_test_split dset_len train_size val_size test_size idxs = Option.none ↔
      ((compensate dset_len train_size val_size test_size t v te).1 < 0 ∨
       (compensate dset_len train_size val_size test_size t v te).2.1 < 0 ∨
       (compensate dset_len train_size val_size test_size t v te).2.2 < 0 ∨
       (compensate dset_len train_size val_size test_size t v te).1 +
         (compensate dset_len train_size val_size test_size t v te).2.1 +
         (compensate dset_len train_size val_size test_size t v te).2.2
         > (dset_len : Int))) := by
  have hrc : resolveCounts dset_len train_size val_size test_size
      = some (compensate dset_len train_size val_size test_size t v te) := by
    simp [resolveCounts, h]
  refine ⟨hrc, ?_, ?_, ?_, ?_, ?_, ?_⟩
  · intro hle
    have hng : ¬(t + v + te > (dset_len : Int)) := not_lt.mpr hle
    simp [compensate, hng]
  · intro hgt htes
    simp [compensate, hgt, htes]
  · intro hgt htes hvs
    simp [compensate, hgt, htes, hvs]
  · intro hgt htes hvs hts
    simp [compensate, hgt, htes, hvs, hts]
  · intro hgt htes hvs hts
    simp [compensate, hgt, htes, hvs, hts]
  · unfold train_val_test_split
    rw [hrc]
    rcases hcp : compensate dset_len train_size val_size test_size t v te with ⟨a, bc⟩
    rcases bc with ⟨b, c⟩
    simp only [hcp]
    split_ifs with h1 h2 <;> simp <;> omega

/-- C4 witness: `dset_len = 10`, `train = 4`, `val = 4` as ints,
`test = 0.3` as a fraction resolving to 3; the sum `11 > 10`, so the
fraction-derived test count is decremented to 2 and the split succeeds. -/
theorem C4_witness :
    resolveCounts 10 (SizeSpec.count 4) (SizeSpec.count 4) (SizeSpec.frac (3 / 10))
      = some (compensate 10 (SizeSpec.count 4) (SizeSpec.count 4)
          (SizeSpec.frac (3 / 10)) 4 4 3) ∧
    ((4 : Int) + 4 + 3 ≤ (10 : Int) →
      compensate 10 (SizeSpec.count 4) (SizeSpec.count 4) (SizeSpec.frac (3 / 10)) 4 4 3
        = (4, 4, 3)) ∧
    ((4 : Int) + 4 + 3 > (10 : Int) → (SizeSpec.frac (3 / 10)).isFrac = true →
      compensate 10 (SizeSpec.count 4) (SizeSpec.count 4) (SizeSpec.frac (3 / 10)) 4 4 3
        = (4, 4, 3 - 1)) ∧
    ((4 : Int) + 4 + 3 > (10 : Int) → (SizeSpec.frac (3 / 10)).isFrac = false →
      (SizeSpec.count 4).isFrac = true →
      compensate 10 (SizeSpec.count 4) (SizeSpec.count 4) (SizeSpec.frac (3 / 10)) 4 4 3
        = (4, 4 - 1, 3)) ∧
    ((4 : Int) + 4 + 3 > (10 : Int) → (SizeSpec.frac (3 / 10)).isFrac = false →
      (SizeSpec.count 4).isFrac = false → (SizeSpec.count 4).isFrac = true →
      compensate 10 (SizeSpec.count 4) (SizeSpec.count 4) (SizeSpec.frac (3 / 10)) 4 4 3
        = (4 - 1, 4, 3)) ∧
    ((4 : Int) + 4 + 3 > (10 : Int) → (SizeSpec.frac (3 / 10)).isFrac = false →
      (SizeSpec.count 4).isFrac = false → (SizeSpec.count 4).isFrac = false →
      compensate 10 (SizeSpec.count 4) (SizeSpec.count 4) (SizeSpec.frac (3 / 10)) 4 4 3
        = (4, 4, 3)) ∧
    (train_val_test_split 10 (SizeSpec.count 4) (SizeSpec.count 4)
        (SizeSpec.frac (3 / 10)) (List.range 10) = Option.none ↔
      ((compensate 10 (SizeSpec.count 4) (SizeSpec.count 4)
          (SizeSpec.frac (3 / 10)) 4 4 3).1 < 0 ∨
       (compensate 10 (SizeSpec.count 4) (SizeSpec.count 4)
          (SizeSpec.frac (3 / 10)) 4 4 3).2.1 < 0 ∨
       (compensate 10 (SizeSpec.count 4) (SizeSpec.count 4)
          (SizeSpec.frac (3 / 10)) 4 4 3).2.2 < 0 ∨
       (compensate 10 (SizeSpec.count 4) (SizeSpec.count 4)
          (SizeSpec.frac (3 / 10)) 4 4 3).1 +
         (compensate 10 (SizeSpec.count 4) (SizeSpec.count 4)
            (SizeSpec.frac (3 / 10)) 4 4 3).2.1 +
         (compensate 10 (SizeSpec.count 4) (SizeSpec.count 4)
            (SizeSpec.frac (3 / 10)) 4 4 3).2.2 > (10 : Int))) :=
  C4_amended_compensation 10 (SizeSpec.count 4) (SizeSpec.count 4)
    (SizeSpec.frac (3 / 10)) (List.range 10) 4 4 3
    (by norm_num [resolvedPre, SizeSpec.resolve, pyRound])

end GeoformerNMR
